import Mathlib

/-!
Verification of the call-recording analyzer's Parameter Scoring Engine.

The repository contains two near-duplicate route handlers:
* `src/src/app/api/analyze-call/route.ts` — the Hindi-locale variant
  (Deepgram called with `language=hi`), embedded below in namespace `Hi`;
* an unnamed copy of the route handler using `language=en` — the
  English-locale variant, embedded below in namespace `En`.

JavaScript numbers are modelled as `Rat` (all comparisons in the source are
against exactly-representable decimal constants); integer scores as `Int`.
`String.prototype.includes` is modelled by infix containment on the character
list; `String.prototype.toLowerCase` by `toLowerCase`, which lowercases
ASCII letters — adequate for the lexicons involved (ASCII keywords and
Devanagari text, which has no case).
-/

/-- Model of JavaScript `s.toLowerCase()`: character-wise ASCII lowercasing
(the lexicons involved are ASCII or Devanagari, which has no case). -/
def toLowerCase (s : String) : String :=
  ⟨s.data.map Char.toLower⟩

/-- Model of JavaScript `s.includes(pat)`: `pat` occurs as a contiguous
substring of `s`. -/
def containsSubstr (s pat : String) : Bool :=
  decide (pat.toList <:+: s.toList)

namespace Hi

/-- Utterance shape consumed by the Hindi-locale route handler. -/
structure Utterance where
  transcript : String
  start : Rat
  end_ : Rat
  sentiment : String
  sentiment_score : Rat

/-- Call-level sentiment shape of the Hindi-locale route handler. -/
structure Sentiment where
  sentiment : String
  sentiment_score : Rat

/-- Topic shape of the Hindi-locale route handler. -/
structure Topic where
  topic : String
  confidence_score : Rat

/-- Intent shape of the Hindi-locale route handler. -/
structure Intent where
  intent : String
  confidence : Rat

/-- Scoring kind of a registry parameter. -/
inductive InputType where
  | PASS_FAIL
  | SCORE
deriving DecidableEq, Repr

/-- One entry of the static parameter registry. -/
structure Parameter where
  key : String
  name : String
  weight : Int
  desc : String
  inputType : InputType

/-- The static 10-parameter registry (`parameters` in the source). -/
def parameters : List Parameter := [
  { key := "greeting", name := "Greeting", weight := 5, desc := "Call opening within 5 seconds", inputType := .PASS_FAIL },
  { key := "collectionUrgency", name := "Collection Urgency", weight := 15, desc := "Create urgency, cross-questioning", inputType := .SCORE },
  { key := "rebuttalCustomerHandling", name := "Rebuttal Handling", weight := 15, desc := "Address penalties, objections", inputType := .SCORE },
  { key := "callEtiquette", name := "Call Etiquette", weight := 15, desc := "Tone, empathy, clear speech", inputType := .SCORE },
  { key := "callDisclaimer", name := "Call Disclaimer", weight := 5, desc := "Take permission before ending", inputType := .PASS_FAIL },
  { key := "correctDisposition", name := "Correct Disposition", weight := 10, desc := "Use correct category with remark", inputType := .PASS_FAIL },
  { key := "callClosing", name := "Call Closing", weight := 5, desc := "Thank the customer properly", inputType := .PASS_FAIL },
  { key := "fatalIdentification", name := "Identification", weight := 5, desc := "Missing agent/customer info", inputType := .PASS_FAIL },
  { key := "fatalTapeDiscloser", name := "Tape Disclosure", weight := 10, desc := "Inform customer about recording", inputType := .PASS_FAIL },
  { key := "fatalToneLanguage", name := "Tone & Language", weight := 15, desc := "No abusive or threatening speech", inputType := .PASS_FAIL }]

/-- Greeting lexicon of `analyzeGreeting`. -/
def greetingKeywords : List String :=
  ["नमस्ते", "हैलो", "गुड मॉर्निंग", "गुड आफ्टरनून", "गुड इवनिंग", "स्वागत है"]

/-- Whether an utterance's lowercased text contains a greeting keyword. -/
def utteranceHasGreeting (u : Utterance) : Bool :=
  greetingKeywords.any (fun keyword => containsSubstr (toLowerCase u.transcript) keyword)

/-- Embedding of `analyzeGreeting` (Hindi variant): first utterance must carry a
greeting keyword and start within 3 seconds. -/
def analyzeGreeting (utterances : List Utterance) : Int :=
  match utterances with
  | [] => 0
  | firstUtterance :: _ =>
    if utteranceHasGreeting firstUtterance && decide (firstUtterance.start ≤ 3) then 5 else 0

/-- Urgency lexicon of `analyzeUrgency`. -/
def urgencyKeywords : List String :=
  ["जरूरी", "तुरंत", "असप", "क्रिटिकल", "महत्वपूर्ण", "डेडलाइन", "ड्यू डेट", "पेमेंट ड्यू", "लेट पेमेंट", "ओवरड्यू"]

/-- Per-utterance urgency increment of `analyzeUrgency`. -/
def urgencyIncrement (u : Utterance) : Int :=
  let text := toLowerCase u.transcript
  let hasUrgency := urgencyKeywords.any (fun keyword => containsSubstr text keyword)
  let hasQuestioning := containsSubstr text "?" &&
    (containsSubstr text "कब" || containsSubstr text "क्यों" || containsSubstr text "कैसे")
  let hasTimeReference := containsSubstr text "आज" || containsSubstr text "कल" ||
    containsSubstr text "इस हफ्ते" || containsSubstr text "इस महीने"
  (if hasUrgency then 2 else 0) + (if hasQuestioning then 1 else 0) + (if hasTimeReference then 1 else 0)

/-- Embedding of `analyzeUrgency` (Hindi variant). -/
def analyzeUrgency (utterances : List Utterance) : Int :=
  let urgencyScore := utterances.foldl (fun score u => score + urgencyIncrement u) 0
  min 15 (max 0 (urgencyScore - 2))

/-- Objection lexicon shared by `analyzeRebuttal` and `generateObservation`. -/
def objectionKeywords : List String :=
  ["नहीं कर सकते", "नहीं होगा", "नहीं", "संभव नहीं", "बहुत महंगा", "अफोर्ड नहीं", "मुश्किल", "समस्या", "चिंता", "परेशान"]

/-- Rebuttal lexicon shared by `analyzeRebuttal` and `generateObservation`. -/
def rebuttalKeywords : List String :=
  ["समझते हैं", "लेकिन", "परंतु", "वैकल्पिक", "समाधान", "मदद", "सहायता", "सपोर्ट", "ऑफर", "विकल्प", "सुझाव"]

/-- Whether an utterance's lowercased text contains an objection keyword
(the local `hasObjection` of the source's `forEach` body). -/
def utteranceHasObjection (u : Utterance) : Bool :=
  objectionKeywords.any (fun keyword => containsSubstr (toLowerCase u.transcript) keyword)

/-- Whether an utterance's lowercased text contains a rebuttal keyword
(the local `hasRebuttal` of the source's `forEach` body). -/
def utteranceHasRebuttal (u : Utterance) : Bool :=
  rebuttalKeywords.any (fun keyword => containsSubstr (toLowerCase u.transcript) keyword)

/-- The `forEach` loop of `analyzeRebuttal`: state is
(objectionCount, rebuttalCount, lastObjectionIndex), index runs from `i`.
`lastObjectionIndex` starts at -1 in the source, hence `Int` state. -/
def rebuttalAux (i : Int) (st : Int × Int × Int) : List Utterance → Int × Int × Int
  | [] => st
  | u :: rest =>
    let (objectionCount, rebuttalCount, lastObjectionIndex) := st
    let hasObjection := utteranceHasObjection u
    let hasRebuttal := utteranceHasRebuttal u
    let objectionCount := if hasObjection then objectionCount + 1 else objectionCount
    let lastObjectionIndex := if hasObjection then i else lastObjectionIndex
    let rebuttalCount :=
      if hasRebuttal && decide (i > lastObjectionIndex) then rebuttalCount + 1 else rebuttalCount
    rebuttalAux (i + 1) (objectionCount, rebuttalCount, lastObjectionIndex) rest

/-- Embedding of `analyzeRebuttal` (Hindi variant). -/
def analyzeRebuttal (utterances : List Utterance) : Int :=
  let (objectionCount, rebuttalCount, _) := rebuttalAux 0 (0, 0, -1) utterances
  let score := min 15 (objectionCount * 2 + rebuttalCount * 3)
  if objectionCount > 0 then
    min 15 (max 0 (score - (objectionCount - rebuttalCount) * 2))
  else 0

/-- Modelled from the spec: loop of the spec's reading of rebuttal scoring, in
which a rebuttal-lexicon hit counts only when an objection has already been
seen (`lastObjectionIndex ≥ 0`) at a strictly smaller index, so a rebuttal
occurring before any objection never counts. The source's loop is
`rebuttalAux`, which differs exactly in that extra conjunct. -/
def rebuttalAuxSpec (i : Int) (st : Int × Int × Int) : List Utterance → Int × Int × Int
  | [] => st
  | u :: rest =>
    let (objectionCount, rebuttalCount, lastObjectionIndex) := st
    let hasObjection := utteranceHasObjection u
    let hasRebuttal := utteranceHasRebuttal u
    let objectionCount := if hasObjection then objectionCount + 1 else objectionCount
    let lastObjectionIndex := if hasObjection then i else lastObjectionIndex
    let rebuttalCount :=
      if hasRebuttal && decide (0 ≤ lastObjectionIndex) && decide (i > lastObjectionIndex) then
        rebuttalCount + 1
      else rebuttalCount
    rebuttalAuxSpec (i + 1) (objectionCount, rebuttalCount, lastObjectionIndex) rest

/-- Modelled from the spec: rebuttal scoring as the spec words it (a rebuttal
hit must strictly follow some objection hit), with the source's scoring
formula applied to the resulting counts. -/
def analyzeRebuttalSpec (utterances : List Utterance) : Int :=
  let (objectionCount, rebuttalCount, _) := rebuttalAuxSpec 0 (0, 0, -1) utterances
  let score := min 15 (objectionCount * 2 + rebuttalCount * 3)
  if objectionCount > 0 then
    min 15 (max 0 (score - (objectionCount - rebuttalCount) * 2))
  else 0

/-- Embedding of `analyzeEtiquette` (Hindi variant): base 8 plus a
sentiment-banded delta, clamped to [0, 15]. -/
def analyzeEtiquette (sentiment : Sentiment) : Int :=
  let baseScore : Int := 8
  let sentimentScore : Int :=
    if sentiment.sentiment_score > mkRat 3 10 then 7
    else if sentiment.sentiment_score > 0 then 3
    else if sentiment.sentiment_score > mkRat (-3) 10 then -3
    else -7
  max 0 (min 15 (baseScore + sentimentScore))

/-- Disclaimer lexicon of `analyzeDisclaimer`. -/
def disclaimerKeywords : List String :=
  ["रिकॉर्डिंग", "रिकॉर्ड", "टेप", "मॉनिटरिंग", "कॉल रिकॉर्ड हो रहा है", "क्वालिटी के लिए", "ट्रेनिंग के लिए"]

/-- Embedding of `analyzeDisclaimer` (Hindi variant): some utterance starting
within 30 seconds carries a disclaimer keyword. -/
def analyzeDisclaimer (utterances : List Utterance) : Int :=
  let earlyDisclaimer := utterances.any (fun u =>
    decide (u.start ≤ 30) && disclaimerKeywords.any (fun keyword =>
      containsSubstr (toLowerCase u.transcript) keyword))
  if earlyDisclaimer then 5 else 0

/-- Disposition lexicon of `analyzeDisposition`. -/
def dispositionKeywords : List String :=
  ["श्रेणी", "प्रकार", "कारण", "उद्देश्य", "डिस्पोजिशन", "वर्गीकरण", "समाधान"]

/-- Embedding of `analyzeDisposition` (Hindi variant): 10 for a disposition
keyword joined with a causal connective, 5 for a bare disposition signal, else 0. -/
def analyzeDisposition (utterances : List Utterance) (intents : List Intent) : Int :=
  let hasDisposition :=
    (utterances.any (fun u =>
      dispositionKeywords.any (fun keyword => containsSubstr (toLowerCase u.transcript) keyword))) ||
    (intents.any (fun intent =>
      containsSubstr (toLowerCase intent.intent) "disposition" || containsSubstr (toLowerCase intent.intent) "category"))
  let hasSpecificDisposition := utterances.any (fun u =>
    let text := toLowerCase u.transcript
    dispositionKeywords.any (fun keyword => containsSubstr text keyword) &&
      (containsSubstr text "क्योंकि" || containsSubstr text "कारण" || containsSubstr text "वजह"))
  if hasSpecificDisposition then 10 else if hasDisposition then 5 else 0

/-- Closing lexicon shared by `analyzeClosing` and `generateObservation`. -/
def closingKeywords : List String :=
  ["धन्यवाद", "शुक्रिया", "आभार", "अलविदा", "बाय", "शुभ दिन", "ख्याल रखना", "अच्छा दिन"]

/-- Embedding of `analyzeClosing` (Hindi variant): the last utterance must carry
a closing keyword and specifically a gratitude word. -/
def analyzeClosing (utterances : List Utterance) : Int :=
  match utterances.getLast? with
  | none => 0
  | some lastUtterance =>
    let hasClosing := closingKeywords.any (fun keyword =>
      containsSubstr (toLowerCase lastUtterance.transcript) keyword)
    let hasPoliteClosing := hasClosing &&
      (containsSubstr (toLowerCase lastUtterance.transcript) "धन्यवाद" ||
       containsSubstr (toLowerCase lastUtterance.transcript) "शुक्रिया")
    if hasPoliteClosing then 5 else 0

/-- Identification lexicon shared by `analyzeIdentification` and
`generateObservation`. -/
def idKeywords : List String :=
  ["नाम", "आईडी", "अकाउंट", "ग्राहक", "रेफरेंस", "अकाउंट नंबर", "ग्राहक आईडी", "पहचान"]

/-- Embedding of `analyzeIdentification` (Hindi variant): some utterance
starting within 60 seconds carries an identification keyword. -/
def analyzeIdentification (utterances : List Utterance) : Int :=
  let earlyIdentification := utterances.any (fun u =>
    decide (u.start ≤ 60) && idKeywords.any (fun keyword =>
      containsSubstr (toLowerCase u.transcript) keyword))
  if earlyIdentification then 5 else 0

/-- Disclosure lexicon of `analyzeTapeDisclosure` (same terms as
`disclaimerKeywords`, re-declared in the source). -/
def disclosureKeywords : List String :=
  ["रिकॉर्डिंग", "रिकॉर्ड", "टेप", "मॉनिटरिंग", "कॉल रिकॉर्ड हो रहा है", "क्वालिटी के लिए", "ट्रेनिंग के लिए"]

/-- Embedding of `analyzeTapeDisclosure` (Hindi variant). -/
def analyzeTapeDisclosure (utterances : List Utterance) : Int :=
  let earlyDisclosure := utterances.any (fun u =>
    decide (u.start ≤ 30) && disclosureKeywords.any (fun keyword =>
      containsSubstr (toLowerCase u.transcript) keyword))
  if earlyDisclosure then 10 else 0

/-- Negative-language lexicon of `analyzeToneLanguage`. -/
def negativeKeywords : List String :=
  ["गाली", "धमकी", "गुस्सा", "अभद्र", "बेवकूफ", "बेकार", "बुरा", "भयानक", "सबसे खराब"]

/-- Whether an utterance's lowercased text contains a negative-language keyword. -/
def utteranceHasNegative (u : Utterance) : Bool :=
  negativeKeywords.any (fun keyword => containsSubstr (toLowerCase u.transcript) keyword)

/-- Embedding of `analyzeToneLanguage` (Hindi variant): negative language or
severely negative sentiment forces 0, otherwise graded bands 5/10/15. -/
def analyzeToneLanguage (sentiment : Sentiment) (utterances : List Utterance) : Int :=
  let hasNegativeLanguage := utterances.any utteranceHasNegative
  if hasNegativeLanguage || decide (sentiment.sentiment_score < mkRat (-3) 10) then 0
  else if sentiment.sentiment_score < mkRat (-1) 10 then 5
  else if sentiment.sentiment_score < mkRat 1 10 then 10
  else 15

/-- Stable insertion of a topic into a list kept in descending
`confidence_score` order (model of the stable JS `Array.prototype.sort` with
comparator `(a, b) => b.confidence_score - a.confidence_score`). -/
def insertTopicDesc (t : Topic) : List Topic → List Topic
  | [] => [t]
  | h :: rest =>
    if t.confidence_score ≥ h.confidence_score then t :: h :: rest
    else h :: insertTopicDesc t rest

/-- Stable descending sort of topics by `confidence_score`. -/
def sortTopicsDesc : List Topic → List Topic
  | [] => []
  | t :: rest => insertTopicDesc t (sortTopicsDesc rest)

/-- Model of adding to the JS `Set` `objectionTopics` (insertion order kept,
duplicates ignored). -/
def addTopicTag (l : List String) (tag : String) : List String :=
  if l.contains tag then l else l ++ [tag]

/-- The objection-topic tags collected by `generateObservation`'s `forEach`. -/
def objectionTopicTags (utterances : List Utterance) : List String :=
  utterances.foldl (fun acc u =>
    let text := toLowerCase u.transcript
    if objectionKeywords.any (fun keyword => containsSubstr text keyword) then
      let acc := if containsSubstr text "पेनल्टी" || containsSubstr text "जुर्माना" then addTopicTag acc "penalty" else acc
      let acc := if containsSubstr text "पेमेंट" || containsSubstr text "भुगतान" then addTopicTag acc "payment" else acc
      if containsSubstr text "समय" || containsSubstr text "टाइम" then addTopicTag acc "time" else acc
    else acc) []

/-- Embedding of `generateObservation` (Hindi variant): gathers the fired
clauses and joins them with a sentence separator, falling back to a fixed
string when no clause fires. -/
def generateObservation (utterances : List Utterance) (topics : List Topic)
    (sentiment : Sentiment) : String :=
  let hasObjections := utterances.any utteranceHasObjection
  let hasRebuttals := utterances.any utteranceHasRebuttal
  let topicList := objectionTopicTags utterances
  let objectionClauses : List String :=
    if hasObjections then
      if topicList.length > 0 then
        if hasRebuttals then
          ["Customer raised objections about " ++ String.intercalate " and " topicList ++ ". Agent managed well"]
        else
          ["Customer raised objections about " ++ String.intercalate " and " topicList ++ ". Agent could have handled better"]
      else
        if hasRebuttals then
          ["Customer raised objections which were handled professionally"]
        else
          ["Customer raised objections that could have been handled better"]
    else []
  let hasDisclosure := utterances.any (fun u =>
    disclosureKeywords.any (fun keyword => containsSubstr (toLowerCase u.transcript) keyword))
  let disclosureClauses : List String :=
    if hasDisclosure then [] else ["Agent missed tape disclosure"]
  let hasIdentification := utterances.any (fun u =>
    idKeywords.any (fun keyword => containsSubstr (toLowerCase u.transcript) keyword))
  let identificationClauses : List String :=
    if hasIdentification then [] else ["Customer identification was not properly verified"]
  let topicClauses : List String :=
    if topics.length > 0 then
      let mainTopics := ((sortTopicsDesc topics).take 2).map (fun t => t.topic)
      if mainTopics.length > 0 then
        let topicContext := String.intercalate " and " mainTopics
        if sentiment.sentiment_score > mkRat 3 10 then
          ["Positive discussion about " ++ topicContext]
        else if sentiment.sentiment_score < mkRat (-3) 10 then
          ["Difficult conversation regarding " ++ topicContext]
        else
          ["Discussed " ++ topicContext]
      else []
    else []
  let hasProperClosing :=
    match utterances.getLast? with
    | none => false
    | some lastUtterance =>
      closingKeywords.any (fun keyword => containsSubstr (toLowerCase lastUtterance.transcript) keyword)
  let closingClauses : List String :=
    if hasProperClosing then [] else ["Call ended without proper closing"]
  let observations :=
    objectionClauses ++ disclosureClauses ++ identificationClauses ++ topicClauses ++ closingClauses
  let joined := String.intercalate ". " observations
  if joined = "" then "No specific observations available." else joined

/-- Normalized input consumed by the Hindi-variant scoring step. -/
structure Transcript where
  utterances : List Utterance
  sentiment : Sentiment
  topics : List Topic
  intents : List Intent

/-- Per-parameter score record produced by the scoring step. -/
structure Scores where
  greeting : Int
  collectionUrgency : Int
  rebuttalCustomerHandling : Int
  callEtiquette : Int
  callDisclaimer : Int
  correctDisposition : Int
  callClosing : Int
  fatalIdentification : Int
  fatalTapeDiscloser : Int
  fatalToneLanguage : Int

/-- Embedding of the `scores` object construction in the Hindi-variant `POST`. -/
def computeScores (t : Transcript) : Scores where
  greeting := analyzeGreeting t.utterances
  collectionUrgency := analyzeUrgency t.utterances
  rebuttalCustomerHandling := analyzeRebuttal t.utterances
  callEtiquette := analyzeEtiquette t.sentiment
  callDisclaimer := analyzeDisclaimer t.utterances
  correctDisposition := analyzeDisposition t.utterances t.intents
  callClosing := analyzeClosing t.utterances
  fatalIdentification := analyzeIdentification t.utterances
  fatalTapeDiscloser := analyzeTapeDisclosure t.utterances
  fatalToneLanguage := analyzeToneLanguage t.sentiment t.utterances

end Hi

namespace En

/-- Utterance shape consumed by the English-locale route handler. -/
structure Utterance where
  transcript : String
  start : Rat
  end_ : Rat

/-- Call-level sentiment shape of the English-locale route handler. -/
structure Sentiment where
  overall : Rat

/-- Topic shape of the English-locale route handler. -/
structure Topic where
  topic : String
  confidence : Rat

/-- Intent shape of the English-locale route handler. -/
structure Intent where
  intent : String
  confidence : Rat

/-- The static 10-parameter registry of the English-locale handler
(re-declared in that source file with the same content). -/
def parameters : List Hi.Parameter := [
  { key := "greeting", name := "Greeting", weight := 5, desc := "Call opening within 5 seconds", inputType := .PASS_FAIL },
  { key := "collectionUrgency", name := "Collection Urgency", weight := 15, desc := "Create urgency, cross-questioning", inputType := .SCORE },
  { key := "rebuttalCustomerHandling", name := "Rebuttal Handling", weight := 15, desc := "Address penalties, objections", inputType := .SCORE },
  { key := "callEtiquette", name := "Call Etiquette", weight := 15, desc := "Tone, empathy, clear speech", inputType := .SCORE },
  { key := "callDisclaimer", name := "Call Disclaimer", weight := 5, desc := "Take permission before ending", inputType := .PASS_FAIL },
  { key := "correctDisposition", name := "Correct Disposition", weight := 10, desc := "Use correct category with remark", inputType := .PASS_FAIL },
  { key := "callClosing", name := "Call Closing", weight := 5, desc := "Thank the customer properly", inputType := .PASS_FAIL },
  { key := "fatalIdentification", name := "Identification", weight := 5, desc := "Missing agent/customer info", inputType := .PASS_FAIL },
  { key := "fatalTapeDiscloser", name := "Tape Disclosure", weight := 10, desc := "Inform customer about recording", inputType := .PASS_FAIL },
  { key := "fatalToneLanguage", name := "Tone & Language", weight := 15, desc := "No abusive or threatening speech", inputType := .PASS_FAIL }]

/-- Embedding of `analyzeGreeting` (English variant): the first utterance must
start within 5 seconds; there is no lexical check. -/
def analyzeGreeting (utterances : List Utterance) : Int :=
  match utterances with
  | [] => 0
  | firstUtterance :: _ =>
    let greetingTime := firstUtterance.start
    if greetingTime ≤ 5 then 5 else 0

/-- Modelled from the spec: the spec asserts the English profile requires
lexical confirmation for the greeting, but no English greeting lexicon exists
anywhere in the source; this lexicon is taken from the spec's greeting
examples. -/
def specGreetingLexicon : List String :=
  ["hello", "good morning", "good afternoon", "good evening"]

/-- Modelled from the spec: greeting scoring as the claim words it for the
English profile — full weight iff the first utterance starts within the
5-second window AND its lowercased text contains a greeting-lexicon term. -/
def analyzeGreetingSpec (utterances : List Utterance) : Int :=
  match utterances with
  | [] => 0
  | firstUtterance :: _ =>
    let hasGreeting := specGreetingLexicon.any (fun keyword =>
      containsSubstr (toLowerCase firstUtterance.transcript) keyword)
    if hasGreeting && decide (firstUtterance.start ≤ 5) then 5 else 0

/-- Urgency lexicon of the English `analyzeUrgency`. -/
def urgencyKeywords : List String :=
  ["urgent", "immediately", "asap", "critical", "important"]

/-- Whether an utterance's lowercased text contains an English urgency keyword. -/
def utteranceHasUrgency (u : Utterance) : Bool :=
  urgencyKeywords.any (fun keyword => containsSubstr (toLowerCase u.transcript) keyword)

/-- Embedding of `analyzeUrgency` (English variant): 3 points per utterance
with an urgency keyword, capped at 15. -/
def analyzeUrgency (utterances : List Utterance) : Int :=
  let urgencyScore := utterances.foldl
    (fun score u => score + (if utteranceHasUrgency u then 3 else 0)) 0
  min 15 urgencyScore

/-- The ASCII apostrophe character, used by the English objection lexicon. -/
def apostrophe : String := String.singleton (Char.ofNat 39)

/-- Objection lexicon of the English `analyzeRebuttal`, containing the
contractions written with an apostrophe in the source. -/
def objectionKeywords : List String :=
  ["can" ++ apostrophe ++ "t", "won" ++ apostrophe ++ "t", "don" ++ apostrophe ++ "t",
   "not possible", "too expensive"]

/-- Whether an utterance's lowercased text contains an English objection keyword. -/
def utteranceHasObjection (u : Utterance) : Bool :=
  objectionKeywords.any (fun keyword => containsSubstr (toLowerCase u.transcript) keyword)

/-- Embedding of `analyzeRebuttal` (English variant): 3 points per utterance
with an objection keyword, capped at 15 (no rebuttal lexicon, no ordering). -/
def analyzeRebuttal (utterances : List Utterance) : Int :=
  let rebuttalScore := utterances.foldl
    (fun score u => score + (if utteranceHasObjection u then 3 else 0)) 0
  min 15 rebuttalScore

/-- Embedding of `analyzeEtiquette` (English variant): base 10 plus 4 when the
overall sentiment is positive, capped at 15. -/
def analyzeEtiquette (sentiment : Sentiment) : Int :=
  let baseScore : Int := 10
  let sentimentScore : Int := if sentiment.overall > 0 then 4 else 0
  min 15 (baseScore + sentimentScore)

/-- Disclaimer lexicon of the English `analyzeDisclaimer`. -/
def disclaimerKeywords : List String :=
  ["recording", "recorded", "tape", "monitoring"]

/-- Embedding of `analyzeDisclaimer` (English variant): no time window. -/
def analyzeDisclaimer (utterances : List Utterance) : Int :=
  let hasDisclaimer := utterances.any (fun u =>
    disclaimerKeywords.any (fun keyword => containsSubstr (toLowerCase u.transcript) keyword))
  if hasDisclaimer then 5 else 0

/-- Embedding of `analyzeDisposition` (English variant): intents only, exact
string equality with `disposition` or `category`. -/
def analyzeDisposition (_utterances : List Utterance) (intents : List Intent) : Int :=
  let hasDisposition := intents.any (fun intent =>
    intent.intent == "disposition" || intent.intent == "category")
  if hasDisposition then 10 else 0

/-- Closing lexicon of the English `analyzeClosing`. -/
def closingKeywords : List String :=
  ["thank", "thanks", "appreciate", "goodbye", "bye"]

/-- Embedding of `analyzeClosing` (English variant): any closing keyword in the
last utterance suffices (no gratitude restriction). -/
def analyzeClosing (utterances : List Utterance) : Int :=
  match utterances.getLast? with
  | none => 0
  | some lastUtterance =>
    let hasClosing := closingKeywords.any (fun keyword =>
      containsSubstr (toLowerCase lastUtterance.transcript) keyword)
    if hasClosing then 5 else 0

/-- Identification lexicon of the English `analyzeIdentification`. -/
def idKeywords : List String := ["name", "id", "account", "customer"]

/-- Embedding of `analyzeIdentification` (English variant): no time window. -/
def analyzeIdentification (utterances : List Utterance) : Int :=
  let hasIdentification := utterances.any (fun u =>
    idKeywords.any (fun keyword => containsSubstr (toLowerCase u.transcript) keyword))
  if hasIdentification then 5 else 0

/-- Disclosure lexicon of the English `analyzeTapeDisclosure` (same terms as
`disclaimerKeywords`, re-declared in the source). -/
def disclosureKeywords : List String :=
  ["recording", "recorded", "tape", "monitoring"]

/-- Embedding of `analyzeTapeDisclosure` (English variant): no time window. -/
def analyzeTapeDisclosure (utterances : List Utterance) : Int :=
  let hasDisclosure := utterances.any (fun u =>
    disclosureKeywords.any (fun keyword => containsSubstr (toLowerCase u.transcript) keyword))
  if hasDisclosure then 10 else 0

/-- Negative-language lexicon of the English `analyzeToneLanguage`. -/
def negativeKeywords : List String := ["abuse", "threat", "angry", "rude"]

/-- Whether an utterance's lowercased text contains an English negative keyword. -/
def utteranceHasNegative (u : Utterance) : Bool :=
  negativeKeywords.any (fun keyword => containsSubstr (toLowerCase u.transcript) keyword)

/-- Embedding of `analyzeToneLanguage` (English variant): 0 on any negative
keyword, else 15 (sentiment is received but unused in this branch structure). -/
def analyzeToneLanguage (_sentiment : Sentiment) (utterances : List Utterance) : Int :=
  let hasNegativeLanguage := utterances.any utteranceHasNegative
  if hasNegativeLanguage then 0 else 15

/-- Embedding of `generateObservation` (English variant): topic list clause and
sentiment-polarity clause only; fixed fallback when neither fires. -/
def generateObservation (utterances : List Utterance) (topics : List Topic)
    (sentiment : Sentiment) : String :=
  let topicClauses : List String :=
    if topics.length > 0 then
      ["Main topics discussed: " ++ String.intercalate ", " (topics.map (fun t => t.topic))]
    else []
  let sentimentClauses : List String :=
    if sentiment.overall ≠ 0 then
      ["Overall sentiment was " ++ (if sentiment.overall > 0 then "positive" else "negative")]
    else []
  let observations := topicClauses ++ sentimentClauses
  let joined := String.intercalate ". " observations
  if joined = "" then "No specific observations available." else joined

/-- Normalized input consumed by the English-variant scoring step. -/
structure Transcript where
  utterances : List Utterance
  sentiment : Sentiment
  topics : List Topic
  intents : List Intent

/-- Embedding of the `scores` object construction in the English-variant `POST`. -/
def computeScores (t : Transcript) : Hi.Scores where
  greeting := analyzeGreeting t.utterances
  collectionUrgency := analyzeUrgency t.utterances
  rebuttalCustomerHandling := analyzeRebuttal t.utterances
  callEtiquette := analyzeEtiquette t.sentiment
  callDisclaimer := analyzeDisclaimer t.utterances
  correctDisposition := analyzeDisposition t.utterances t.intents
  callClosing := analyzeClosing t.utterances
  fatalIdentification := analyzeIdentification t.utterances
  fatalTapeDiscloser := analyzeTapeDisclosure t.utterances
  fatalToneLanguage := analyzeToneLanguage t.sentiment t.utterances

end En

/-! ### Helper lemmas: ranges of the individual scorers -/

theorem hi_greeting_mem (utterances : List Hi.Utterance) :
    Hi.analyzeGreeting utterances = 0 ∨ Hi.analyzeGreeting utterances = 5 := by
  cases utterances with
  | nil => exact Or.inl rfl
  | cons u rest =>
    simp only [Hi.analyzeGreeting]
    split
    · exact Or.inr rfl
    · exact Or.inl rfl

theorem hi_urgency_bounds (utterances : List Hi.Utterance) :
    0 ≤ Hi.analyzeUrgency utterances ∧ Hi.analyzeUrgency utterances ≤ 15 := by
  simp only [Hi.analyzeUrgency]
  omega

theorem hi_rebuttal_bounds (utterances : List Hi.Utterance) :
    0 ≤ Hi.analyzeRebuttal utterances ∧ Hi.analyzeRebuttal utterances ≤ 15 := by
  simp only [Hi.analyzeRebuttal]
  rcases Hi.rebuttalAux 0 (0, 0, -1) utterances with ⟨o, r, l⟩
  dsimp only
  split <;> omega

theorem hi_etiquette_bounds (sentiment : Hi.Sentiment) :
    0 ≤ Hi.analyzeEtiquette sentiment ∧ Hi.analyzeEtiquette sentiment ≤ 15 := by
  simp only [Hi.analyzeEtiquette]
  omega

theorem hi_disclaimer_mem (utterances : List Hi.Utterance) :
    Hi.analyzeDisclaimer utterances = 0 ∨ Hi.analyzeDisclaimer utterances = 5 := by
  simp only [Hi.analyzeDisclaimer]
  split
  · exact Or.inr rfl
  · exact Or.inl rfl

theorem hi_disposition_mem (utterances : List Hi.Utterance) (intents : List Hi.Intent) :
    Hi.analyzeDisposition utterances intents = 0 ∨ Hi.analyzeDisposition utterances intents = 5 ∨
      Hi.analyzeDisposition utterances intents = 10 := by
  simp only [Hi.analyzeDisposition]
  split
  · exact Or.inr (Or.inr rfl)
  · split
    · exact Or.inr (Or.inl rfl)
    · exact Or.inl rfl

theorem hi_closing_mem (utterances : List Hi.Utterance) :
    Hi.analyzeClosing utterances = 0 ∨ Hi.analyzeClosing utterances = 5 := by
  simp only [Hi.analyzeClosing]
  rcases utterances.getLast? with _ | u
  · exact Or.inl rfl
  · dsimp only
    split
    · exact Or.inr rfl
    · exact Or.inl rfl

theorem hi_identification_mem (utterances : List Hi.Utterance) :
    Hi.analyzeIdentification utterances = 0 ∨ Hi.analyzeIdentification utterances = 5 := by
  simp only [Hi.analyzeIdentification]
  split
  · exact Or.inr rfl
  · exact Or.inl rfl

theorem hi_tape_mem (utterances : List Hi.Utterance) :
    Hi.analyzeTapeDisclosure utterances = 0 ∨ Hi.analyzeTapeDisclosure utterances = 10 := by
  simp only [Hi.analyzeTapeDisclosure]
  split
  · exact Or.inr rfl
  · exact Or.inl rfl

theorem hi_tone_mem (sentiment : Hi.Sentiment) (utterances : List Hi.Utterance) :
    Hi.analyzeToneLanguage sentiment utterances = 0 ∨
      Hi.analyzeToneLanguage sentiment utterances = 5 ∨
      Hi.analyzeToneLanguage sentiment utterances = 10 ∨
      Hi.analyzeToneLanguage sentiment utterances = 15 := by
  simp only [Hi.analyzeToneLanguage]
  split
  · exact Or.inl rfl
  · split
    · exact Or.inr (Or.inl rfl)
    · split
      · exact Or.inr (Or.inr (Or.inl rfl))
      · exact Or.inr (Or.inr (Or.inr rfl))

theorem en_foldl_step_ge (p : En.Utterance → Bool) (c : Int) (hc : 0 ≤ c) :
    ∀ (l : List En.Utterance) (acc : Int),
      acc ≤ l.foldl (fun score u => score + (if p u then c else 0)) acc
  | [], acc => le_refl acc
  | u :: rest, acc => by
    simp only [List.foldl_cons]
    refine le_trans ?_ (en_foldl_step_ge p c hc rest _)
    split <;> omega

theorem en_greeting_mem (utterances : List En.Utterance) :
    En.analyzeGreeting utterances = 0 ∨ En.analyzeGreeting utterances = 5 := by
  cases utterances with
  | nil => exact Or.inl rfl
  | cons u rest =>
    simp only [En.analyzeGreeting]
    split
    · exact Or.inr rfl
    · exact Or.inl rfl

theorem en_urgency_bounds (utterances : List En.Utterance) :
    0 ≤ En.analyzeUrgency utterances ∧ En.analyzeUrgency utterances ≤ 15 := by
  have h := en_foldl_step_ge (fun u => En.utteranceHasUrgency u) 3 (by omega) utterances 0
  simp only [En.analyzeUrgency]
  omega

theorem en_rebuttal_bounds (utterances : List En.Utterance) :
    0 ≤ En.analyzeRebuttal utterances ∧ En.analyzeRebuttal utterances ≤ 15 := by
  have h := en_foldl_step_ge (fun u => En.utteranceHasObjection u) 3 (by omega) utterances 0
  simp only [En.analyzeRebuttal]
  omega

theorem en_etiquette_bounds (sentiment : En.Sentiment) :
    0 ≤ En.analyzeEtiquette sentiment ∧ En.analyzeEtiquette sentiment ≤ 15 := by
  simp only [En.analyzeEtiquette]
  omega

theorem en_disclaimer_mem (utterances : List En.Utterance) :
    En.analyzeDisclaimer utterances = 0 ∨ En.analyzeDisclaimer utterances = 5 := by
  simp only [En.analyzeDisclaimer]
  split
  · exact Or.inr rfl
  · exact Or.inl rfl

theorem en_disposition_mem (utterances : List En.Utterance) (intents : List En.Intent) :
    En.analyzeDisposition utterances intents = 0 ∨ En.analyzeDisposition utterances intents = 10 := by
  simp only [En.analyzeDisposition]
  split
  · exact Or.inr rfl
  · exact Or.inl rfl

theorem en_closing_mem (utterances : List En.Utterance) :
    En.analyzeClosing utterances = 0 ∨ En.analyzeClosing utterances = 5 := by
  simp only [En.analyzeClosing]
  rcases utterances.getLast? with _ | u
  · exact Or.inl rfl
  · dsimp only
    split
    · exact Or.inr rfl
    · exact Or.inl rfl

theorem en_identification_mem (utterances : List En.Utterance) :
    En.analyzeIdentification utterances = 0 ∨ En.analyzeIdentification utterances = 5 := by
  simp only [En.analyzeIdentification]
  split
  · exact Or.inr rfl
  · exact Or.inl rfl

theorem en_tape_mem (utterances : List En.Utterance) :
    En.analyzeTapeDisclosure utterances = 0 ∨ En.analyzeTapeDisclosure utterances = 10 := by
  simp only [En.analyzeTapeDisclosure]
  split
  · exact Or.inr rfl
  · exact Or.inl rfl

theorem en_tone_mem (sentiment : En.Sentiment) (utterances : List En.Utterance) :
    En.analyzeToneLanguage sentiment utterances = 0 ∨
      En.analyzeToneLanguage sentiment utterances = 15 := by
  simp only [En.analyzeToneLanguage]
  split
  · exact Or.inl rfl
  · exact Or.inr rfl

/-! ### Claim theorems -/

/-- C1: for every valid transcript, in both locale variants, every score
produced by the scoring step lies between 0 and the corresponding registry
weight (greeting 5, collectionUrgency 15, rebuttalCustomerHandling 15,
callEtiquette 15, callDisclaimer 5, correctDisposition 10, callClosing 5,
fatalIdentification 5, fatalTapeDiscloser 10, fatalToneLanguage 15), and the
weights declared in the parameter registry sum to 100. -/
theorem c1_scores_bounded_and_weights_sum :
    ((Hi.parameters.map fun p => p.weight).sum = 100) ∧
    ((En.parameters.map fun p => p.weight).sum = 100) ∧
    (∀ t : Hi.Transcript,
      (0 ≤ (Hi.computeScores t).greeting ∧ (Hi.computeScores t).greeting ≤ 5) ∧
      (0 ≤ (Hi.computeScores t).collectionUrgency ∧ (Hi.computeScores t).collectionUrgency ≤ 15) ∧
      (0 ≤ (Hi.computeScores t).rebuttalCustomerHandling ∧ (Hi.computeScores t).rebuttalCustomerHandling ≤ 15) ∧
      (0 ≤ (Hi.computeScores t).callEtiquette ∧ (Hi.computeScores t).callEtiquette ≤ 15) ∧
      (0 ≤ (Hi.computeScores t).callDisclaimer ∧ (Hi.computeScores t).callDisclaimer ≤ 5) ∧
      (0 ≤ (Hi.computeScores t).correctDisposition ∧ (Hi.computeScores t).correctDisposition ≤ 10) ∧
      (0 ≤ (Hi.computeScores t).callClosing ∧ (Hi.computeScores t).callClosing ≤ 5) ∧
      (0 ≤ (Hi.computeScores t).fatalIdentification ∧ (Hi.computeScores t).fatalIdentification ≤ 5) ∧
      (0 ≤ (Hi.computeScores t).fatalTapeDiscloser ∧ (Hi.computeScores t).fatalTapeDiscloser ≤ 10) ∧
      (0 ≤ (Hi.computeScores t).fatalToneLanguage ∧ (Hi.computeScores t).fatalToneLanguage ≤ 15)) ∧
    (∀ t : En.Transcript,
      (0 ≤ (En.computeScores t).greeting ∧ (En.computeScores t).greeting ≤ 5) ∧
      (0 ≤ (En.computeScores t).collectionUrgency ∧ (En.computeScores t).collectionUrgency ≤ 15) ∧
      (0 ≤ (En.computeScores t).rebuttalCustomerHandling ∧ (En.computeScores t).rebuttalCustomerHandling ≤ 15) ∧
      (0 ≤ (En.computeScores t).callEtiquette ∧ (En.computeScores t).callEtiquette ≤ 15) ∧
      (0 ≤ (En.computeScores t).callDisclaimer ∧ (En.computeScores t).callDisclaimer ≤ 5) ∧
      (0 ≤ (En.computeScores t).correctDisposition ∧ (En.computeScores t).correctDisposition ≤ 10) ∧
      (0 ≤ (En.computeScores t).callClosing ∧ (En.computeScores t).callClosing ≤ 5) ∧
      (0 ≤ (En.computeScores t).fatalIdentification ∧ (En.computeScores t).fatalIdentification ≤ 5) ∧
      (0 ≤ (En.computeScores t).fatalTapeDiscloser ∧ (En.computeScores t).fatalTapeDiscloser ≤ 10) ∧
      (0 ≤ (En.computeScores t).fatalToneLanguage ∧ (En.computeScores t).fatalToneLanguage ≤ 15)) := by
  refine ⟨by decide, by decide, fun t => ?_, fun t => ?_⟩
  · simp only [Hi.computeScores]
    refine ⟨?_, hi_urgency_bounds t.utterances, hi_rebuttal_bounds t.utterances,
      hi_etiquette_bounds t.sentiment, ?_, ?_, ?_, ?_, ?_, ?_⟩
    · rcases hi_greeting_mem t.utterances with h | h <;> omega
    · rcases hi_disclaimer_mem t.utterances with h | h <;> omega
    · rcases hi_disposition_mem t.utterances t.intents with h | h | h <;> omega
    · rcases hi_closing_mem t.utterances with h | h <;> omega
    · rcases hi_identification_mem t.utterances with h | h <;> omega
    · rcases hi_tape_mem t.utterances with h | h <;> omega
    · rcases hi_tone_mem t.sentiment t.utterances with h | h | h | h <;> omega
  · simp only [En.computeScores]
    refine ⟨?_, en_urgency_bounds t.utterances, en_rebuttal_bounds t.utterances,
      en_etiquette_bounds t.sentiment, ?_, ?_, ?_, ?_, ?_, ?_⟩
    · rcases en_greeting_mem t.utterances with h | h <;> omega
    · rcases en_disclaimer_mem t.utterances with h | h <;> omega
    · rcases en_disposition_mem t.utterances t.intents with h | h <;> omega
    · rcases en_closing_mem t.utterances with h | h <;> omega
    · rcases en_identification_mem t.utterances with h | h <;> omega
    · rcases en_tape_mem t.utterances with h | h <;> omega
    · rcases en_tone_mem t.sentiment t.utterances with h | h <;> omega

/-- C3 counterexample: `correctDisposition` is registered as PASS_FAIL with
weight 10, yet the Hindi-variant `analyzeDisposition` awards the intermediate
value 5 on a transcript whose only utterance contains the disposition keyword
`श्रेणी` without a causal connective, so PASS_FAIL parameters are not always
awarded only 0 or their full weight. -/
theorem c3_counterexample :
    Hi.analyzeDisposition [⟨"श्रेणी", 0, 1, "neutral", 0⟩] [] = 5 ∧
    (Hi.parameters.filter fun p => p.key == "correctDisposition") =
      [⟨"correctDisposition", "Correct Disposition", 10, "Use correct category with remark", .PASS_FAIL⟩] := by
  constructor
  · decide
  · rfl

/-- C3 amended: PASS_FAIL-registered parameters other than
`correctDisposition` and `fatalToneLanguage` are awarded only 0 or their full
weight in both variants; in the Hindi variant `correctDisposition` can also be
awarded the intermediate value 5 (its range is 0, 5, 10) and
`fatalToneLanguage` ranges over 0, 5, 10, 15; in the English variant every
PASS_FAIL parameter, including `correctDisposition` (0 or 10) and
`fatalToneLanguage` (0 or 15), takes only the two extreme values. -/
theorem c3_amended :
    (∀ t : Hi.Transcript,
      ((Hi.computeScores t).greeting = 0 ∨ (Hi.computeScores t).greeting = 5) ∧
      ((Hi.computeScores t).callDisclaimer = 0 ∨ (Hi.computeScores t).callDisclaimer = 5) ∧
      ((Hi.computeScores t).correctDisposition = 0 ∨ (Hi.computeScores t).correctDisposition = 5 ∨
        (Hi.computeScores t).correctDisposition = 10) ∧
      ((Hi.computeScores t).callClosing = 0 ∨ (Hi.computeScores t).callClosing = 5) ∧
      ((Hi.computeScores t).fatalIdentification = 0 ∨ (Hi.computeScores t).fatalIdentification = 5) ∧
      ((Hi.computeScores t).fatalTapeDiscloser = 0 ∨ (Hi.computeScores t).fatalTapeDiscloser = 10) ∧
      ((Hi.computeScores t).fatalToneLanguage = 0 ∨ (Hi.computeScores t).fatalToneLanguage = 5 ∨
        (Hi.computeScores t).fatalToneLanguage = 10 ∨ (Hi.computeScores t).fatalToneLanguage = 15)) ∧
    (∀ t : En.Transcript,
      ((En.computeScores t).greeting = 0 ∨ (En.computeScores t).greeting = 5) ∧
      ((En.computeScores t).callDisclaimer = 0 ∨ (En.computeScores t).callDisclaimer = 5) ∧
      ((En.computeScores t).correctDisposition = 0 ∨ (En.computeScores t).correctDisposition = 10) ∧
      ((En.computeScores t).callClosing = 0 ∨ (En.computeScores t).callClosing = 5) ∧
      ((En.computeScores t).fatalIdentification = 0 ∨ (En.computeScores t).fatalIdentification = 5) ∧
      ((En.computeScores t).fatalTapeDiscloser = 0 ∨ (En.computeScores t).fatalTapeDiscloser = 10) ∧
      ((En.computeScores t).fatalToneLanguage = 0 ∨ (En.computeScores t).fatalToneLanguage = 15)) := by
  constructor
  · intro t
    simp only [Hi.computeScores]
    exact ⟨hi_greeting_mem t.utterances, hi_disclaimer_mem t.utterances,
      hi_disposition_mem t.utterances t.intents, hi_closing_mem t.utterances,
      hi_identification_mem t.utterances, hi_tape_mem t.utterances,
      hi_tone_mem t.sentiment t.utterances⟩
  · intro t
    simp only [En.computeScores]
    exact ⟨en_greeting_mem t.utterances, en_disclaimer_mem t.utterances,
      en_disposition_mem t.utterances t.intents, en_closing_mem t.utterances,
      en_identification_mem t.utterances, en_tape_mem t.utterances,
      en_tone_mem t.sentiment t.utterances⟩

/-- C5: in both locale variants, if any utterance contains a
negative-language-lexicon term then the Tone & Language score is 0, whatever
the call-level sentiment (in particular even when it is positive). -/
theorem c5_negative_language_forces_zero :
    (∀ (sentiment : Hi.Sentiment) (utterances : List Hi.Utterance),
      utterances.any Hi.utteranceHasNegative = true →
      Hi.analyzeToneLanguage sentiment utterances = 0) ∧
    (∀ (sentiment : En.Sentiment) (utterances : List En.Utterance),
      utterances.any En.utteranceHasNegative = true →
      En.analyzeToneLanguage sentiment utterances = 0) := by
  constructor
  · intro sentiment utterances h
    simp [Hi.analyzeToneLanguage, h]
  · intro sentiment utterances h
    simp [En.analyzeToneLanguage, h]

/-- C5 witness: a concrete abusive utterance forces Tone & Language to 0 in
both variants even though the call-level sentiment is positive. -/
theorem c5_negative_language_forces_zero_witness :
    Hi.analyzeToneLanguage ⟨"positive", mkRat 9 10⟩ [⟨"गाली", 0, 1, "negative", -1⟩] = 0 ∧
    En.analyzeToneLanguage ⟨1⟩ [⟨"that was rude", 0, 1⟩] = 0 :=
  ⟨c5_negative_language_forces_zero.1 ⟨"positive", mkRat 9 10⟩ [⟨"गाली", 0, 1, "negative", -1⟩] (by decide),
   c5_negative_language_forces_zero.2 ⟨1⟩ [⟨"that was rude", 0, 1⟩] (by decide)⟩

/-- Loop characterization for `analyzeRebuttal`: starting from any state whose
`lastObjectionIndex` is strictly below the running index, the loop adds to
`objectionCount` the number of utterances with an objection hit, and adds to
`rebuttalCount` the number of utterances with a rebuttal hit and no objection
hit — because the source updates `lastObjectionIndex` before testing
`index > lastObjectionIndex`, that test is false exactly on the utterances
that are themselves objection hits. -/
theorem rebuttalAux_characterization :
    ∀ (l : List Hi.Utterance) (i objC rebC lastObj : Int), lastObj < i →
      ∃ lo : Int,
        Hi.rebuttalAux i (objC, rebC, lastObj) l =
          (objC + (l.countP Hi.utteranceHasObjection : Int),
           rebC + (l.countP (fun u => Hi.utteranceHasRebuttal u && !Hi.utteranceHasObjection u) : Int),
           lo) := by
  intro l
  induction l with
  | nil =>
    intro i objC rebC lastObj h
    exact ⟨lastObj, by simp [Hi.rebuttalAux]⟩
  | cons u rest ih =>
    intro i objC rebC lastObj h
    have hd : decide (i > lastObj) = true := decide_eq_true h
    cases hObj : Hi.utteranceHasObjection u <;> cases hReb : Hi.utteranceHasRebuttal u
    · obtain ⟨lo, hEq⟩ := ih (i + 1) objC rebC lastObj (by omega)
      refine ⟨lo, ?_⟩
      simp [Hi.rebuttalAux, hObj, hReb, hd, List.countP_cons, hEq, Prod.ext_iff]
      try push_cast
      try omega
    · obtain ⟨lo, hEq⟩ := ih (i + 1) objC (rebC + 1) lastObj (by omega)
      refine ⟨lo, ?_⟩
      simp [Hi.rebuttalAux, hObj, hReb, hd, List.countP_cons, hEq, Prod.ext_iff]
      try push_cast
      try omega
    · obtain ⟨lo, hEq⟩ := ih (i + 1) (objC + 1) rebC i (by omega)
      refine ⟨lo, ?_⟩
      simp [Hi.rebuttalAux, hObj, hReb, List.countP_cons, hEq, Prod.ext_iff]
      try push_cast
      try omega
    · have hdi : decide (i > i) = false := by simp
      obtain ⟨lo, hEq⟩ := ih (i + 1) (objC + 1) rebC i (by omega)
      refine ⟨lo, ?_⟩
      simp [Hi.rebuttalAux, hObj, hReb, hdi, List.countP_cons, hEq, Prod.ext_iff]
      try push_cast
      try omega

/-- C2 counterexample: on the transcript [rebuttal-term utterance,
objection-term utterance] the rebuttal term precedes every objection, so under
the spec reading (embodied by `analyzeRebuttalSpec`) the score is 0; the
Hindi-variant `analyzeRebuttal` nevertheless counts that early rebuttal (its
index 0 exceeds the -1 sentinel) and returns 5. -/
theorem c2_counterexample :
    Hi.analyzeRebuttal [⟨"मदद", 0, 1, "neutral", 0⟩, ⟨"नहीं", 1, 2, "neutral", 0⟩] = 5 ∧
    Hi.analyzeRebuttalSpec [⟨"मदद", 0, 1, "neutral", 0⟩, ⟨"नहीं", 1, 2, "neutral", 0⟩] = 0 := by
  constructor
  · decide
  · decide

/-- C2 amended: in `analyzeRebuttal` a rebuttal-lexicon hit is counted exactly
when its utterance is not itself an objection-lexicon hit — because
`lastObjectionIndex` starts at -1 and is updated before the
`index > lastObjectionIndex` test, a rebuttal occurring before any objection
does count; and if zero objections occurred the score is 0 regardless of how
many rebuttal hits occurred. -/
theorem c2_amended_rebuttal :
    (∀ utterances : List Hi.Utterance,
      Hi.analyzeRebuttal utterances =
        (let objectionCount : Int := utterances.countP Hi.utteranceHasObjection
         let rebuttalCount : Int :=
           utterances.countP (fun u => Hi.utteranceHasRebuttal u && !Hi.utteranceHasObjection u)
         let score := min 15 (objectionCount * 2 + rebuttalCount * 3)
         if objectionCount > 0 then
           min 15 (max 0 (score - (objectionCount - rebuttalCount) * 2))
         else 0)) ∧
    (∀ utterances : List Hi.Utterance,
      utterances.countP Hi.utteranceHasObjection = 0 → Hi.analyzeRebuttal utterances = 0) := by
  have key : ∀ utterances : List Hi.Utterance,
      Hi.analyzeRebuttal utterances =
        (let objectionCount : Int := utterances.countP Hi.utteranceHasObjection
         let rebuttalCount : Int :=
           utterances.countP (fun u => Hi.utteranceHasRebuttal u && !Hi.utteranceHasObjection u)
         let score := min 15 (objectionCount * 2 + rebuttalCount * 3)
         if objectionCount > 0 then
           min 15 (max 0 (score - (objectionCount - rebuttalCount) * 2))
         else 0) := by
    intro utterances
    obtain ⟨lo, hEq⟩ := rebuttalAux_characterization utterances 0 0 0 (-1) (by omega)
    simp only [Hi.analyzeRebuttal, hEq, zero_add]
  refine ⟨key, fun utterances h => ?_⟩
  rw [key utterances]
  simp [h]

/-- C2 amended witness: a transcript whose only utterance carries a rebuttal
term but no objection term has zero objections and scores 0. -/
theorem c2_amended_rebuttal_witness :
    Hi.analyzeRebuttal [⟨"मदद", 0, 1, "neutral", 0⟩] = 0 :=
  c2_amended_rebuttal.2 [⟨"मदद", 0, 1, "neutral", 0⟩] (by decide)

/-- C4 counterexample: the English-variant `analyzeGreeting` awards the full
weight to a first utterance whose text contains no greeting-lexicon term at
all, refuting the claim that the English profile requires lexical
confirmation (`analyzeGreetingSpec` is the lexicon-and-time reading). -/
theorem c4_counterexample :
    En.analyzeGreeting [⟨"okay then", 2, 3⟩] = 5 ∧
    En.analyzeGreetingSpec [⟨"okay then", 2, 3⟩] = 0 := by
  constructor
  · decide
  · decide

/-- C4 amended: greeting scoring examines only the first utterance and scores
0 with zero utterances in both variants; the English variant awards 5 iff the
first utterance starts within 5 seconds, with no lexical check; the Hindi
variant awards 5 iff the first utterance starts within 3 seconds and carries a
Hindi greeting-lexicon term; under the English variant, utterance 0
["Hello, good morning" at start 2.0] scores 5 and the same text at start
8.0 scores 0. -/
theorem c4_amended_greeting :
    (En.analyzeGreeting [] = 0) ∧
    (∀ (u : En.Utterance) (rest : List En.Utterance),
      (En.analyzeGreeting (u :: rest) = 5 ↔ u.start ≤ 5)) ∧
    (Hi.analyzeGreeting [] = 0) ∧
    (∀ (u : Hi.Utterance) (rest : List Hi.Utterance),
      (Hi.analyzeGreeting (u :: rest) = 5 ↔
        (Hi.utteranceHasGreeting u = true ∧ u.start ≤ 3))) ∧
    En.analyzeGreeting [⟨"Hello, good morning", 2, 3⟩] = 5 ∧
    En.analyzeGreeting [⟨"Hello, good morning", 8, 9⟩] = 0 := by
  refine ⟨rfl, fun u rest => ?_, rfl, fun u rest => ?_, by decide, by decide⟩
  · simp only [En.analyzeGreeting]
    split <;> rename_i h
    · simp [h]
    · simp [h]
  · simp only [Hi.analyzeGreeting]
    split <;> rename_i h
    · simp only [Bool.and_eq_true, decide_eq_true_eq] at h
      simp [h]
    · simp only [Bool.and_eq_true, decide_eq_true_eq, not_and] at h
      constructor
      · intro h5
        exact absurd h5 (by norm_num)
      · intro hg
        exact absurd hg.2 (h hg.1)

/-- C6 counterexample: the English-variant `analyzeClosing` awards the full
weight when the last utterance is just "bye", a closing-lexicon word that is
not a gratitude term, refuting the claim that only thank-you-family terms earn
the weight. -/
theorem c6_counterexample :
    En.analyzeClosing [⟨"bye", 0, 1⟩] = 5 ∧
    containsSubstr (toLowerCase "bye") "thank" = false ∧
    containsSubstr (toLowerCase "bye") "thanks" = false ∧
    containsSubstr (toLowerCase "bye") "appreciate" = false := by
  refine ⟨by decide, by decide, by decide, by decide⟩

/-- C6 amended: both variants examine only the last utterance and score 0 on
zero utterances; the Hindi variant awards 5 iff the last utterance contains a
gratitude term (धन्यवाद or शुक्रिया), so a non-gratitude closing word such as
बाय alone scores 0; the English variant awards 5 iff the last utterance
contains any closing-lexicon term, including the non-gratitude words
"goodbye" and "bye". -/
theorem c6_amended_closing :
    (Hi.analyzeClosing [] = 0) ∧ (En.analyzeClosing [] = 0) ∧
    (∀ (utterances : List Hi.Utterance) (u : Hi.Utterance),
      (Hi.analyzeClosing (utterances ++ [u]) = 5 ↔
        (containsSubstr (toLowerCase u.transcript) "धन्यवाद" = true ∨
         containsSubstr (toLowerCase u.transcript) "शुक्रिया" = true))) ∧
    (∀ (utterances : List En.Utterance) (u : En.Utterance),
      (En.analyzeClosing (utterances ++ [u]) = 5 ↔
        En.closingKeywords.any
          (fun keyword => containsSubstr (toLowerCase u.transcript) keyword) = true)) ∧
    Hi.analyzeClosing [⟨"बाय", 0, 1, "neutral", 0⟩] = 0 := by
  refine ⟨rfl, rfl, fun utterances u => ?_, fun utterances u => ?_, by decide⟩
  · have hlast : (utterances ++ [u]).getLast? = some u := by simp
    simp only [Hi.analyzeClosing, hlast]
    cases h1 : containsSubstr (toLowerCase u.transcript) "धन्यवाद" <;>
      cases h2 : containsSubstr (toLowerCase u.transcript) "शुक्रिया"
    · simp
    · have hc : Hi.closingKeywords.any
          (fun keyword => containsSubstr (toLowerCase u.transcript) keyword) = true :=
        List.any_eq_true.mpr ⟨"शुक्रिया", by decide, h2⟩
      simp [hc, h1, h2]
    · have hc : Hi.closingKeywords.any
          (fun keyword => containsSubstr (toLowerCase u.transcript) keyword) = true :=
        List.any_eq_true.mpr ⟨"धन्यवाद", by decide, h1⟩
      simp [hc, h1, h2]
    · have hc : Hi.closingKeywords.any
          (fun keyword => containsSubstr (toLowerCase u.transcript) keyword) = true :=
        List.any_eq_true.mpr ⟨"धन्यवाद", by decide, h1⟩
      simp [hc, h1, h2]
  · have hlast : (utterances ++ [u]).getLast? = some u := by simp
    simp only [En.analyzeClosing, hlast]
    split <;> rename_i h
    · simp [h]
    · simp [h]

/-- C7: on a transcript with zero utterances, every position/time-based scorer
of both variants returns its documented zero case and the observation
synthesizer still returns a well-defined string (for the Hindi variant the
three missing-signal clauses; for the English variant the fallback or the
sentiment clause), so nothing raises on the empty utterance list. -/
theorem c7_empty_utterances_degrade_to_zero :
    Hi.analyzeGreeting [] = 0 ∧ Hi.analyzeUrgency [] = 0 ∧ Hi.analyzeRebuttal [] = 0 ∧
    Hi.analyzeDisclaimer [] = 0 ∧ Hi.analyzeDisposition [] [] = 0 ∧ Hi.analyzeClosing [] = 0 ∧
    Hi.analyzeIdentification [] = 0 ∧ Hi.analyzeTapeDisclosure [] = 0 ∧
    (∀ sentiment : Hi.Sentiment, Hi.generateObservation [] [] sentiment =
      "Agent missed tape disclosure. Customer identification was not properly verified. Call ended without proper closing") ∧
    En.analyzeGreeting [] = 0 ∧ En.analyzeUrgency [] = 0 ∧ En.analyzeRebuttal [] = 0 ∧
    En.analyzeDisclaimer [] = 0 ∧ En.analyzeDisposition [] [] = 0 ∧ En.analyzeClosing [] = 0 ∧
    En.analyzeIdentification [] = 0 ∧ En.analyzeTapeDisclosure [] = 0 ∧
    (∀ sentiment : En.Sentiment, En.generateObservation [] [] sentiment =
      if sentiment.overall = 0 then "No specific observations available."
      else "Overall sentiment was " ++ (if sentiment.overall > 0 then "positive" else "negative")) := by
  refine ⟨rfl, rfl, rfl, rfl, rfl, rfl, rfl, rfl, fun sentiment => rfl,
    rfl, rfl, rfl, rfl, rfl, rfl, rfl, rfl, fun sentiment => ?_⟩
  rcases eq_or_ne sentiment.overall 0 with h | h
  · simp [En.generateObservation, h]
    try decide
  · rcases lt_or_gt_of_ne h with hlt | hgt
    · have hng : ¬ sentiment.overall > 0 := not_lt.mpr (le_of_lt hlt)
      simp [En.generateObservation, h, hng]
      try decide
    · simp [En.generateObservation, h, hgt]
      try decide

/-- C8 counterexample: on the empty transcript (zero topics, neutral call
sentiment) the Hindi-variant `generateObservation` does not return the
documented fallback string — the missing-disclosure, missing-identification
and missing-closing clauses fire instead. -/
theorem c8_counterexample :
    Hi.generateObservation [] [] ⟨"neutral", 0⟩ ≠ "No specific observations available." := by
  decide

/-- C8 amended: the English-variant `generateObservation` returns the
documented fallback string exactly for every transcript with zero topics and
neutral (0) call sentiment; the Hindi variant can instead emit missing-signal
clauses even with zero topics and neutral sentiment. -/
theorem c8_amended_observation_fallback :
    ∀ utterances : List En.Utterance,
      En.generateObservation utterances [] ⟨0⟩ = "No specific observations available." := by
  intro utterances
  rfl

/-- C9: in both locale variants the Call Disclaimer and Tape Disclosure
scorers agree up to their weights — the disclaimer awards 5 exactly when the
tape disclosure awards 10, since they test identical lexicons under identical
time conditions. -/
theorem c9_disclaimer_tape_agreement :
    (∀ utterances : List Hi.Utterance,
      (Hi.analyzeDisclaimer utterances = 5 ↔ Hi.analyzeTapeDisclosure utterances = 10)) ∧
    (∀ utterances : List En.Utterance,
      (En.analyzeDisclaimer utterances = 5 ↔ En.analyzeTapeDisclosure utterances = 10)) := by
  constructor
  · intro utterances
    have hkw : Hi.disclaimerKeywords = Hi.disclosureKeywords := rfl
    simp only [Hi.analyzeDisclaimer, Hi.analyzeTapeDisclosure, hkw]
    split <;> simp
  · intro utterances
    have hkw : En.disclaimerKeywords = En.disclosureKeywords := rfl
    simp only [En.analyzeDisclaimer, En.analyzeTapeDisclosure, hkw]
    split <;> simp

/-- C10: in both variants the Call Etiquette score depends only on the
call-level sentiment — two transcripts with equal call sentiment receive the
same etiquette score regardless of utterances, topics and intents. -/
theorem c10_etiquette_noninterference :
    ∀ (t1 t2 : Hi.Transcript) (s1 s2 : En.Transcript),
      t1.sentiment = t2.sentiment → s1.sentiment = s2.sentiment →
      (Hi.computeScores t1).callEtiquette = (Hi.computeScores t2).callEtiquette ∧
      (En.computeScores s1).callEtiquette = (En.computeScores s2).callEtiquette := by
  intro t1 t2 s1 s2 h1 h2
  constructor
  · show Hi.analyzeEtiquette t1.sentiment = Hi.analyzeEtiquette t2.sentiment
    rw [h1]
  · show En.analyzeEtiquette s1.sentiment = En.analyzeEtiquette s2.sentiment
    rw [h2]

/-- C10 witness: two concrete transcript pairs sharing only the call-level
sentiment but differing in utterances, topics and intents receive equal
etiquette scores. -/
theorem c10_etiquette_noninterference_witness :
    (Hi.computeScores ⟨[⟨"नमस्ते", 0, 1, "positive", 1⟩], ⟨"positive", mkRat 1 2⟩,
        [⟨"loan", mkRat 9 10⟩], []⟩).callEtiquette =
      (Hi.computeScores ⟨[], ⟨"positive", mkRat 1 2⟩, [], [⟨"disposition", 1⟩]⟩).callEtiquette ∧
    (En.computeScores ⟨[⟨"hello there", 0, 1⟩], ⟨1⟩, [], []⟩).callEtiquette =
      (En.computeScores ⟨[], ⟨1⟩, [⟨"billing", 1⟩], [⟨"category", 1⟩]⟩).callEtiquette :=
  c10_etiquette_noninterference _ _ _ _ rfl rfl
